import Mathlib

/-!
Shallow embedding of the private-credit Anchor program
(`programs/private-credit/src`): pool registry, loan lifecycle,
attestation verifier, receipt/NAV accounting and audit access control.

Modelling conventions:
* `u64` values are `Nat`s; the source's `checked_add`/`checked_sub` are
  embedded as `Option`-valued operations, and the source's unchecked
  `+`/`*` (in `calculate_nav_per_token` / `calculate_redemption_value`)
  abort the transaction on overflow (`TxError.arithmeticOverflow`),
  matching the repository's checked-arithmetic convention
  ("failure, not wraparound").
* `Pubkey` and 32-byte hashes/ids are opaque identifiers compared only
  for equality; they are embedded as `Nat` (the all-zero hash is `0`).
* The keccak-based hash helpers (`calculate_attestation_hash`,
  `calculate_payload_hash`, `calculate_permission_hash`) are external
  cryptography; operations that use them take the hash function as an
  explicit argument.
* `Clock::get()` is an explicit `now : Int` argument; PDA bumps are
  explicit `bump : Nat` arguments.
* The Anchor account constraints that guard an instruction
  (`has_one = ...`, `constraint = ...`) run before the handler body and
  are embedded as leading checks, in account-struct order.  The
  `has_one = authority` constraint declared on `UpdateLoanStatus`'s
  `loan_commit` refers to a field `LoanCommit` does not have and is
  omitted.
* Every instruction is a pure function from its inputs and the current
  record values to `Except TxError` of the updated records.  The host
  ledger commits the returned records on `ok` and discards all
  provisional writes on `error` (`committed` below).
-/

namespace PrivateCredit

/-- Opaque public-key identifier (source: `Pubkey`), compared only for
equality. -/
abbrev Pubkey := Nat

/-- Opaque 32-byte hash/identifier (source: `[u8; 32]`); the all-zero
hash is `0`. -/
abbrev Hash32 := Nat

/-- Opaque 64-byte signature (source: `[u8; 64]`). -/
abbrev Sig64 := Nat

/-- Exclusive upper bound of `u64`. -/
def U64_LIMIT : Nat := 2 ^ 64

/-- Source `u64::checked_add`. -/
def checked_add (a b : Nat) : Option Nat :=
  if a + b < U64_LIMIT then some (a + b) else none

/-- Source `u64::checked_sub`. -/
def checked_sub (a b : Nat) : Option Nat :=
  if b ≤ a then some (a - b) else none

/-- Source unchecked `u64` addition: aborts the transaction on overflow. -/
def add_u64 (a b : Nat) : Option Nat :=
  if a + b < U64_LIMIT then some (a + b) else none

/-- Source unchecked `u64` multiplication: aborts the transaction on
overflow. -/
def mul_u64 (a b : Nat) : Option Nat :=
  if a * b < U64_LIMIT then some (a * b) else none

/-- Error codes of `errors.rs` (`PrivateCreditError`). -/
inductive PrivateCreditError
  | InvalidPoolConfig
  | PoolNotInitialized
  | InvalidLoanStatusTransition
  | InsufficientFunds
  | InvalidAttestation
  | AttestationVerificationFailed
  | UnauthorizedAccess
  | LoanNotFound
  | InvalidLoanCommit
  | ReceiptTokenMintFailed
  | ReceiptTokenBurnFailed
  | AuditRequestDenied
  | InvalidAuditor
  | LegalOrderVerificationFailed
  | NavCalculationError
  | CovenantBreachDetected
  | InvalidTrancheConfig
  | ReserveInsufficient
  | EmergencyPauseActive
  | InvalidMultisigSignature
  | OraclePriceStale
  | SlippageExceeded
deriving DecidableEq, Repr

/-- Transaction-level outcome: a program error code, or an abort caused
by an arithmetic-overflow panic in unchecked `u64` arithmetic. -/
inductive TxError
  | program (e : PrivateCreditError)
  | arithmeticOverflow
deriving DecidableEq, Repr

/-- Source `require!(cond, err)`. -/
def require (cond : Prop) [Decidable cond] (e : PrivateCreditError) :
    Except TxError Unit :=
  if cond then .ok () else .error (.program e)

/-- Lift a checked-arithmetic result, mapping `None` to the given error
(source `ok_or(err)?`). -/
def okOr (o : Option Nat) (e : PrivateCreditError) : Except TxError Nat :=
  match o with
  | some n => .ok n
  | none => .error (.program e)

/-- Lift an unchecked-arithmetic result, mapping overflow to a
transaction abort. -/
def orPanic (o : Option Nat) : Except TxError Nat :=
  match o with
  | some n => .ok n
  | none => .error .arithmeticOverflow

/-- Ledger commit semantics: on `ok` the returned records replace the
stored ones, on `error` every provisional write is discarded and the
stored records keep their pre-state. -/
def committed {α : Type} (r : Except TxError α) (pre : α) : α :=
  match r with
  | .ok a => a
  | .error _ => pre

/-! ## Data model (`state/`) -/

/-- Source `state/pool.rs` `CovenantThresholds` (all basis points). -/
structure CovenantThresholds where
  max_ltv : Nat
  min_dscr : Nat
  max_utilization : Nat
  min_collateral_ratio : Nat
deriving DecidableEq, Repr

/-- Source `state/pool.rs` `PoolConfig`. -/
structure PoolConfig where
  max_loan_amount : Nat
  min_loan_amount : Nat
  max_loan_duration : Nat
  interest_rate_bps : Nat
  management_fee_bps : Nat
  performance_fee_bps : Nat
  reserve_ratio_bps : Nat
  insurance_ratio_bps : Nat
  max_borrower_concentration : Nat
  min_credit_score : Nat
  covenant_thresholds : CovenantThresholds
  emergency_pause : Bool
deriving DecidableEq, Repr

/-- Source `state/pool.rs` `PoolAccount`. -/
structure PoolAccount where
  owner : Pubkey
  authority : Pubkey
  receipt_mint : Pubkey
  escrow_squad_address : Pubkey
  nav_commit_root : Hash32
  reserved_funds : Nat
  total_deposits : Nat
  total_loans : Nat
  config : PoolConfig
  created_at : Int
  updated_at : Int
  bump : Nat
deriving DecidableEq, Repr

/-- Source `state/loan.rs` `LoanStatus`. -/
inductive LoanStatus
  | Pending
  | Approved
  | Active
  | Repaid
  | Defaulted
  | Liquidated
  | Cancelled
deriving DecidableEq, Repr

/-- Source `state/loan.rs` `LoanCommit`. -/
structure LoanCommit where
  loan_id : Hash32
  borrower_pubkey : Pubkey
  lender_pubkey : Pubkey
  commit_hash : Hash32
  status : LoanStatus
  amount : Nat
  interest_rate_bps : Nat
  duration : Nat
  collateral_hash : Hash32
  tranche : Nat
  maturity : Int
  created_at : Int
  updated_at : Int
  bump : Nat
deriving DecidableEq, Repr

/-- Source `state/loan.rs` `LoanCommitData`.  The handler and the
`CreateLoanCommit` account seeds both read `loan_commit_data.loan_id`,
so the field is modelled as present although the struct declaration in
`state/loan.rs` omits it. -/
structure LoanCommitData where
  loan_id : Hash32
  borrower_pubkey : Pubkey
  lender_pubkey : Pubkey
  commit_hash : Hash32
  amount : Nat
  interest_rate_bps : Nat
  duration : Nat
  collateral_hash : Hash32
  tranche : Nat
  maturity : Int
deriving DecidableEq, Repr

/-- Source `state/attestation.rs` `SignerMeta`. -/
structure SignerMeta where
  pubkey : Pubkey
  signature : Sig64
  weight : Nat
deriving DecidableEq, Repr

/-- Source `state/attestation.rs` `AttestationType`. -/
inductive AttestationType
  | NavUpdate
  | LoanApproval
  | LoanDisbursement
  | LoanRepayment
  | CovenantBreach
  | Liquidation
  | AuditGrant
  | EmergencyPause
deriving DecidableEq, Repr

/-- Source `state/attestation.rs` `AttestationPayload`. -/
inductive AttestationPayload
  | NavUpdate (pool_id : Hash32) (new_nav : Nat) (epoch : Nat)
  | LoanApproval (loan_id : Hash32) (borrower_pubkey : Pubkey) (amount : Nat)
  | LoanDisbursement (loan_id : Hash32) (amount : Nat) (beneficiary : Pubkey)
  | LoanRepayment (loan_id : Hash32) (amount : Nat) (remaining_balance : Nat)
  | CovenantBreach (loan_id : Hash32) (breach_type : String) (severity : Nat)
  | Liquidation (loan_id : Hash32) (collateral_amount : Nat) (recovery_amount : Nat)
  | AuditGrant (loan_id : Hash32) (auditor_pubkey : Pubkey) (access_level : Nat)
  | EmergencyPause (reason : String) (duration : Nat)
deriving DecidableEq, Repr

/-- Source `state/attestation.rs` `AttestationData` (transient input). -/
structure AttestationData where
  attestation_type : AttestationType
  payload : AttestationPayload
  signatures : List Sig64
  signer_pubkeys : List Pubkey
  threshold : Nat
  nonce : Nat
  timestamp : Int
deriving DecidableEq, Repr

/-- Source `state/attestation.rs` `AttestationRecord`. -/
structure AttestationRecord where
  attestation_hash : Hash32
  signer_meta : List SignerMeta
  payload_hash : Hash32
  timestamp : Int
  verified : Bool
  bump : Nat
deriving DecidableEq, Repr

/-- Source `state/attestation.rs` `AuditRequestStatus`. -/
inductive AuditRequestStatus
  | Pending
  | Approved
  | Denied
  | Expired
deriving DecidableEq, Repr

/-- Source `state/attestation.rs` `AuditRequest`. -/
structure AuditRequest where
  requester : Pubkey
  loan_id : Hash32
  auditor_pubkey : Pubkey
  permission_hash : Hash32
  legal_order_hash : Hash32
  status : AuditRequestStatus
  created_at : Int
  granted_at : Option Int
  bump : Nat
deriving DecidableEq, Repr

/-- Source `state/receipt.rs` `ReceiptTokenAccount`. -/
structure ReceiptTokenAccount where
  owner : Pubkey
  mint : Pubkey
  amount : Nat
  nav_at_mint : Nat
  minted_at : Int
  last_claim_at : Int
  total_claimed : Nat
  bump : Nat
deriving DecidableEq, Repr

/-! ## Pool registry (`instructions/pool.rs`) -/

/-- Source `instructions/pool.rs` `initialize_pool`: validates the pool
configuration and stores a fresh `PoolAccount` with zeroed aggregates. -/
def initialize_pool (owner authority receipt_mint escrow_squad_address : Pubkey)
    (pool_config : PoolConfig) (now : Int) (bump : Nat) :
    Except TxError PoolAccount := do
  require (0 < pool_config.max_loan_amount) .InvalidPoolConfig
  require (pool_config.min_loan_amount ≤ pool_config.max_loan_amount) .InvalidPoolConfig
  require (pool_config.interest_rate_bps ≤ 10000) .InvalidPoolConfig
  .ok { owner := owner
        authority := authority
        receipt_mint := receipt_mint
        escrow_squad_address := escrow_squad_address
        nav_commit_root := 0
        reserved_funds := 0
        total_deposits := 0
        total_loans := 0
        config := pool_config
        created_at := now
        updated_at := now
        bump := bump }

/-- Source `instructions/pool.rs` `update_pool_config`: `has_one =
authority` account constraint, then validation of the new config, then
the emergency-pause check, then the config write. -/
def update_pool_config (pool_account : PoolAccount) (authority : Pubkey)
    (new_config : PoolConfig) (now : Int) : Except TxError PoolAccount := do
  require (pool_account.authority = authority) .UnauthorizedAccess
  require (0 < new_config.max_loan_amount) .InvalidPoolConfig
  require (new_config.min_loan_amount ≤ new_config.max_loan_amount) .InvalidPoolConfig
  require (new_config.interest_rate_bps ≤ 10000) .InvalidPoolConfig
  require (pool_account.config.emergency_pause = false) .EmergencyPauseActive
  .ok { pool_account with config := new_config, updated_at := now }

/-! ## Loan lifecycle (`instructions/loan.rs`) -/

/-- Source `instructions/loan.rs` `create_loan_commit`: `has_one =
authority` on the pool, then parameter validation against the pool
config, then the fresh `LoanCommit` write with status `Pending`. -/
def create_loan_commit (pool_account : PoolAccount) (authority : Pubkey)
    (loan_commit_data : LoanCommitData) (now : Int) (bump : Nat) :
    Except TxError LoanCommit := do
  require (pool_account.authority = authority) .UnauthorizedAccess
  require (pool_account.config.min_loan_amount ≤ loan_commit_data.amount) .InvalidLoanCommit
  require (loan_commit_data.amount ≤ pool_account.config.max_loan_amount) .InvalidLoanCommit
  require (loan_commit_data.duration ≤ pool_account.config.max_loan_duration) .InvalidLoanCommit
  require (loan_commit_data.tranche ≤ 3) .InvalidLoanCommit
  .ok { loan_id := loan_commit_data.loan_id
        borrower_pubkey := loan_commit_data.borrower_pubkey
        lender_pubkey := loan_commit_data.lender_pubkey
        commit_hash := loan_commit_data.commit_hash
        status := .Pending
        amount := loan_commit_data.amount
        interest_rate_bps := loan_commit_data.interest_rate_bps
        duration := loan_commit_data.duration
        collateral_hash := loan_commit_data.collateral_hash
        tranche := loan_commit_data.tranche
        maturity := loan_commit_data.maturity
        created_at := now
        updated_at := now
        bump := bump }

/-- Source `instructions/loan.rs` `update_loan_status`: loan-id check,
then the transition-graph match, then the status write.  The attestation
argument is accepted but never verified (the verification is a `TODO` in
the source). -/
def update_loan_status (loan_commit : LoanCommit) (pool_account : PoolAccount)
    (authority : Pubkey) (loan_id : Hash32) (status : LoanStatus)
    (attestation : AttestationData) (now : Int) : Except TxError LoanCommit := do
  require (pool_account.authority = authority) .UnauthorizedAccess
  require (loan_commit.loan_id = loan_id) .LoanNotFound
  let _ ← (match loan_commit.status, status with
    | .Pending, .Approved => Except.ok ()
    | .Approved, .Active => Except.ok ()
    | .Active, .Repaid => Except.ok ()
    | .Active, .Defaulted => Except.ok ()
    | .Defaulted, .Liquidated => Except.ok ()
    | .Pending, .Cancelled => Except.ok ()
    | _, _ => Except.error (TxError.program .InvalidLoanStatusTransition) :
    Except TxError Unit)
  .ok { loan_commit with status := status, updated_at := now }

/-! ## Attestation verifier (`instructions/attestation.rs`) -/

/-- Source `instructions/attestation.rs` `verify_threshold_signature`:
the stubbed threshold check — fails on an empty signer set and succeeds
on any non-empty one; the signatures, weights and declared threshold are
never consulted. -/
def verify_threshold_signature (signer_meta : List SignerMeta) :
    Except TxError Bool :=
  if signer_meta.isEmpty then .ok false else .ok true

/-- Source `instructions/attestation.rs` `submit_attestation`: computes
the binding hash and the payload hash (external keccak, passed in as
`attHash` / `payloadHash`), pairs signer pubkeys with signatures at
weight 1, and stores the record with `verified = false`. -/
def submit_attestation (attHash : AttestationData → Hash32)
    (payloadHash : AttestationPayload → Hash32)
    (attestation_data : AttestationData) (now : Int) (bump : Nat) :
    Except TxError AttestationRecord :=
  let attestation_hash := attHash attestation_data
  let signer_meta := (attestation_data.signer_pubkeys.zip attestation_data.signatures).map
    (fun ps => { pubkey := ps.1, signature := ps.2, weight := 1 })
  let payload_hash := payloadHash attestation_data.payload
  .ok { attestation_hash := attestation_hash
        signer_meta := signer_meta
        payload_hash := payload_hash
        timestamp := now
        verified := false
        bump := bump }

/-- Source `instructions/attestation.rs` `verify_attestation`: the
`VerifyAttestation` account constraint (stored hash must equal the
instruction argument, else `InvalidAttestation`), then the threshold
check; `verified` is set on success, the record is left untouched on
failure, and the verdict is returned either way. -/
def verify_attestation (attestation_record : AttestationRecord)
    (attestation_hash : Hash32) : Except TxError (Bool × AttestationRecord) := do
  require (attestation_record.attestation_hash = attestation_hash) .InvalidAttestation
  let is_valid ← verify_threshold_signature attestation_record.signer_meta
  if is_valid then
    .ok (true, { attestation_record with verified := true })
  else
    .ok (false, attestation_record)

/-! ## Receipt/NAV accounting (`instructions/receipt.rs`) -/

/-- Source `instructions/receipt.rs` `calculate_nav_per_token`: unit NAV
(1.0 with 6 decimals) for an empty pool, otherwise
`(total_deposits + reserved_funds) * 1_000_000 / total_deposits` in
unchecked `u64` arithmetic. -/
def calculate_nav_per_token (pool_account : PoolAccount) : Except TxError Nat :=
  if pool_account.total_deposits = 0 then
    .ok 1000000
  else do
    let total_value ← orPanic (add_u64 pool_account.total_deposits pool_account.reserved_funds)
    let scaled ← orPanic (mul_u64 total_value 1000000)
    .ok (scaled / pool_account.total_deposits)

/-- Source `instructions/receipt.rs` `calculate_redemption_value`:
`nav_appreciation = current_nav.checked_sub(nav_at_mint).unwrap_or(0)`,
then `base + appreciation` with the two products and the final addition
in unchecked `u64` arithmetic. -/
def calculate_redemption_value (token_amount nav_at_mint current_nav : Nat) :
    Except TxError Nat := do
  let nav_appreciation := (checked_sub current_nav nav_at_mint).getD 0
  let base_num ← orPanic (mul_u64 token_amount nav_at_mint)
  let base_value := base_num / 1000000
  let app_num ← orPanic (mul_u64 token_amount nav_appreciation)
  let appreciation_value := app_num / 1000000
  let result ← orPanic (add_u64 base_value appreciation_value)
  .ok result

/-- Source `instructions/receipt.rs` `mint_receipt_tokens`: `has_one =
authority` on the pool, `NavUpdate` type check, NAV computation,
emergency-pause check, checked increase of `total_deposits`,
initialization of a fresh receipt account (zero balance), checked
increase of the receipt balance. -/
def mint_receipt_tokens (pool_account : PoolAccount)
    (receipt_token_account : ReceiptTokenAccount) (recipient : Pubkey)
    (receipt_mint : Pubkey) (authority : Pubkey) (amount : Nat)
    (attestation : AttestationData) (now : Int) (bump : Nat) :
    Except TxError (PoolAccount × ReceiptTokenAccount) := do
  require (pool_account.authority = authority) .UnauthorizedAccess
  require (attestation.attestation_type = .NavUpdate) .InvalidAttestation
  let nav_per_token ← calculate_nav_per_token pool_account
  require (pool_account.config.emergency_pause = false) .EmergencyPauseActive
  let new_deposits ← okOr (checked_add pool_account.total_deposits amount) .InsufficientFunds
  let pool' := { pool_account with total_deposits := new_deposits }
  let receipt₀ :=
    if receipt_token_account.amount = 0 then
      { receipt_token_account with
          owner := recipient
          mint := receipt_mint
          nav_at_mint := nav_per_token
          minted_at := now
          last_claim_at := now
          total_claimed := 0
          bump := bump }
    else receipt_token_account
  let new_amount ← okOr (checked_add receipt₀.amount amount) .InsufficientFunds
  .ok (pool', { receipt₀ with amount := new_amount })

/-- Source `instructions/receipt.rs` `burn_receipt_tokens`: `has_one`
constraints on pool and receipt account, `NavUpdate` type check, balance
check, NAV and redemption-value computation, checked decrease of
`total_deposits` and the receipt balance, checked increase of
`total_claimed`. -/
def burn_receipt_tokens (pool_account : PoolAccount)
    (receipt_token_account : ReceiptTokenAccount) (owner : Pubkey)
    (authority : Pubkey) (amount : Nat) (attestation : AttestationData)
    (now : Int) : Except TxError (PoolAccount × ReceiptTokenAccount) := do
  require (pool_account.authority = authority) .UnauthorizedAccess
  require (receipt_token_account.owner = owner) .UnauthorizedAccess
  require (attestation.attestation_type = .NavUpdate) .InvalidAttestation
  require (amount ≤ receipt_token_account.amount) .InsufficientFunds
  let current_nav_per_token ← calculate_nav_per_token pool_account
  let redemption_value ← calculate_redemption_value amount
    receipt_token_account.nav_at_mint current_nav_per_token
  let new_deposits ← okOr (checked_sub pool_account.total_deposits amount) .InsufficientFunds
  let new_amount ← okOr (checked_sub receipt_token_account.amount amount) .InsufficientFunds
  let new_claimed ← okOr (checked_add receipt_token_account.total_claimed redemption_value) .InsufficientFunds
  .ok ({ pool_account with total_deposits := new_deposits },
       { receipt_token_account with amount := new_amount, total_claimed := new_claimed })

/-! ## Audit access controller (`instructions/audit.rs`) -/

/-- Source `instructions/audit.rs` `request_audit`: non-zero legal-order
hash check, then the fresh `Pending` request write; the permission hash
is external keccak, passed in as `permHash`. -/
def request_audit (permHash : Hash32 → Pubkey → Hash32) (requester : Pubkey)
    (loan_id : Hash32) (auditor_pubkey : Pubkey) (legal_order_hash : Hash32)
    (now : Int) (bump : Nat) : Except TxError AuditRequest := do
  require (legal_order_hash ≠ 0) .LegalOrderVerificationFailed
  .ok { requester := requester
        loan_id := loan_id
        auditor_pubkey := auditor_pubkey
        permission_hash := permHash loan_id auditor_pubkey
        legal_order_hash := legal_order_hash
        status := .Pending
        created_at := now
        granted_at := none
        bump := bump }

/-- Source `instructions/audit.rs` `grant_audit_access`: the
`GrantAuditAccess` account constraints (stored request still `Pending`,
else `AuditRequestDenied`; pool `has_one = authority`), then the
`AuditGrant` type check, loan-id match, auditor match, and the
`Approved` write.  The attestation signatures are never verified (the
verification is a `TODO` in the source). -/
def grant_audit_access (audit_request : AuditRequest)
    (pool_account : PoolAccount) (authority : Pubkey) (loan_id : Hash32)
    (auditor_pubkey : Pubkey) (attestation : AttestationData) (now : Int) :
    Except TxError AuditRequest := do
  require (audit_request.status = .Pending) .AuditRequestDenied
  require (pool_account.authority = authority) .UnauthorizedAccess
  require (attestation.attestation_type = .AuditGrant) .InvalidAttestation
  require (audit_request.loan_id = loan_id) .LoanNotFound
  require (audit_request.auditor_pubkey = auditor_pubkey) .InvalidAuditor
  .ok { audit_request with status := .Approved, granted_at := some now }

/-! ## Spec-side definitions (for refinement-style comparison) -/

/-- Spec §4.2 transition graph, written from the spec's words: the six
permitted edges. -/
def allowedTransition : LoanStatus → LoanStatus → Bool
  | .Pending, .Approved => true
  | .Approved, .Active => true
  | .Active, .Repaid => true
  | .Active, .Defaulted => true
  | .Defaulted, .Liquidated => true
  | .Pending, .Cancelled => true
  | _, _ => false

/-- Spec §3 pool-config invariant. -/
def validPoolConfig (c : PoolConfig) : Prop :=
  c.min_loan_amount ≤ c.max_loan_amount ∧ 0 < c.max_loan_amount ∧
    c.interest_rate_bps ≤ 10000

instance (c : PoolConfig) : Decidable (validPoolConfig c) := by
  unfold validPoolConfig; infer_instance

/-- Spec §4.4 current-NAV formula, written from the claim's words. -/
def navFormula (p : PoolAccount) : Nat :=
  if p.total_deposits = 0 then 1000000
  else (p.total_deposits + p.reserved_funds) * 1000000 / p.total_deposits

/-- Spec §4.4 redemption-value formula, written from the claim's words
(`Nat` subtraction is `max 0` of the difference). -/
def redemptionFormula (amount nav_at_mint current_nav : Nat) : Nat :=
  amount * nav_at_mint / 1000000 + amount * (current_nav - nav_at_mint) / 1000000

end PrivateCredit

namespace PrivateCredit

/-! ## Concrete fixtures for witnesses and counterexamples -/

/-- Concrete covenant thresholds. -/
def testThresholds : CovenantThresholds :=
  { max_ltv := 8000, min_dscr := 12000, max_utilization := 9000,
    min_collateral_ratio := 15000 }

/-- Concrete valid, unpaused pool configuration. -/
def testConfig : PoolConfig :=
  { max_loan_amount := 10000, min_loan_amount := 100, max_loan_duration := 30,
    interest_rate_bps := 500, management_fee_bps := 100,
    performance_fee_bps := 200, reserve_ratio_bps := 1000,
    insurance_ratio_bps := 50, max_borrower_concentration := 2000,
    min_credit_score := 600, covenant_thresholds := testThresholds,
    emergency_pause := false }

/-- The concrete configuration with the emergency pause set. -/
def pausedConfig : PoolConfig := { testConfig with emergency_pause := true }

/-- A configuration violating `max_loan_amount > 0`. -/
def invalidConfig : PoolConfig := { testConfig with max_loan_amount := 0 }

/-- Concrete pool record (authority `2`). -/
def testPool : PoolAccount :=
  { owner := 1, authority := 2, receipt_mint := 3, escrow_squad_address := 4,
    nav_commit_root := 0, reserved_funds := 0, total_deposits := 0,
    total_loans := 0, config := testConfig, created_at := 0, updated_at := 0,
    bump := 255 }

/-- The concrete pool with the emergency pause set. -/
def pausedPool : PoolAccount := { testPool with config := pausedConfig }

/-- Concrete stored loan commit in status `Pending` (loan id `7`). -/
def testLoan : LoanCommit :=
  { loan_id := 7, borrower_pubkey := 11, lender_pubkey := 12, commit_hash := 13,
    status := .Pending, amount := 500, interest_rate_bps := 500, duration := 10,
    collateral_hash := 14, tranche := 0, maturity := 100, created_at := 0,
    updated_at := 0, bump := 254 }

/-- Concrete attestation input with an empty signer set: even the stubbed
threshold check rejects its signer list, so no verification of it can
ever succeed. -/
def emptySignerAtt (t : AttestationType) (p : AttestationPayload) :
    AttestationData :=
  { attestation_type := t, payload := p, signatures := [], signer_pubkeys := [],
    threshold := 2, nonce := 0, timestamp := 0 }

/-- Concrete `NavUpdate` attestation input. -/
def navAtt : AttestationData :=
  emptySignerAtt .NavUpdate (.NavUpdate 1 1000000 1)

/-- Concrete receipt-token account holding 5 units minted at unit NAV
(owner `21`). -/
def testReceipt : ReceiptTokenAccount :=
  { owner := 21, mint := 3, amount := 5, nav_at_mint := 1000000, minted_at := 0,
    last_claim_at := 0, total_claimed := 0, bump := 253 }

/-- Concrete pool holding 100 deposited units (NAV exactly 1.0). -/
def burnPool : PoolAccount := { testPool with total_deposits := 100 }

/-- Concrete pending audit request for loan `7` and auditor `41`. -/
def pendingRequest : AuditRequest :=
  { requester := 31, loan_id := 7, auditor_pubkey := 41, permission_hash := 50,
    legal_order_hash := 60, status := .Pending, created_at := 0,
    granted_at := none, bump := 252 }

/-- Concrete `AuditGrant` attestation input with an empty signer set. -/
def auditAtt : AttestationData := emptySignerAtt .AuditGrant (.AuditGrant 7 41 1)

/-- Concrete stored attestation record (hash `9`, empty signer set). -/
def testRecord : AttestationRecord :=
  { attestation_hash := 9, signer_meta := [], payload_hash := 10,
    timestamp := 0, verified := false, bump := 251 }

/-- Concrete audit request already `Approved`. -/
def approvedRequest : AuditRequest := { pendingRequest with status := .Approved }

/-- Concrete loan-commit data whose amount 50 is below the pool's
minimum of 100. -/
def lowAmountData : LoanCommitData :=
  { loan_id := 8, borrower_pubkey := 11, lender_pubkey := 12, commit_hash := 13,
    amount := 50, interest_rate_bps := 500, duration := 10,
    collateral_hash := 14, tranche := 0, maturity := 100 }

/-- Concrete receipt account holding the maximal `u64` balance. -/
def maxReceipt : ReceiptTokenAccount :=
  { testReceipt with amount := U64_LIMIT - 1 }

/-! ## Helper lemmas -/

/-- Rewriting lemma: a satisfied `require` succeeds. -/
theorem require_true {c : Prop} [Decidable c] (h : c) (e : PrivateCreditError) :
    require c e = .ok () := by
  simp [require, h]

/-- Rewriting lemma: a violated `require` fails with its error code. -/
theorem require_false {c : Prop} [Decidable c] (h : ¬ c) (e : PrivateCreditError) :
    require c e = .error (.program e) := by
  simp [require, h]

/-- Every error produced by a `require` is its own error code. -/
theorem require_error_eq {c : Prop} [Decidable c] {e : PrivateCreditError}
    {t : TxError} (h : require c e = .error t) : t = .program e := by
  by_cases hc : c <;> simp [require, hc] at h <;> simp [h]

/-- Every error produced by `okOr` is its own error code. -/
theorem okOr_error_eq {o : Option Nat} {e : PrivateCreditError} {t : TxError}
    (h : okOr o e = .error t) : t = .program e := by
  cases o <;> simp [okOr] at h <;> simp [h]

/-- Every error produced by `orPanic` is an arithmetic-overflow abort. -/
theorem orPanic_error_eq {o : Option Nat} {t : TxError}
    (h : orPanic o = .error t) : t = .arithmeticOverflow := by
  cases o <;> simp [orPanic] at h <;> simp [h]


/-- Characterize a successful unchecked addition. -/
theorem add_u64_some {a b v : Nat} (h : add_u64 a b = some v) : v = a + b := by
  unfold add_u64 at h
  split at h <;> simp_all

/-- Characterize a successful unchecked multiplication. -/
theorem mul_u64_some {a b v : Nat} (h : mul_u64 a b = some v) : v = a * b := by
  unfold mul_u64 at h
  split at h <;> simp_all

/-- Characterize a successful checked addition. -/
theorem checked_add_some {a b v : Nat} (h : checked_add a b = some v) :
    v = a + b ∧ a + b < U64_LIMIT := by
  unfold checked_add at h
  split at h <;> simp_all

/-- Characterize a successful checked subtraction. -/
theorem checked_sub_some {a b v : Nat} (h : checked_sub a b = some v) :
    v = a - b ∧ b ≤ a := by
  unfold checked_sub at h
  split at h <;> simp_all

/-- Truncated `u64` subtraction with a `0` default is `Nat` subtraction. -/
theorem checked_sub_getD (a b : Nat) : (checked_sub a b).getD 0 = a - b := by
  unfold checked_sub
  split <;> simp <;> omega

/-- A successful NAV computation returns exactly the spec's NAV formula. -/
theorem nav_ok_eq_formula {p : PoolAccount} {n : Nat}
    (h : calculate_nav_per_token p = .ok n) : n = navFormula p := by
  unfold calculate_nav_per_token at h
  unfold navFormula
  by_cases h0 : p.total_deposits = 0
  · simp [h0] at h ⊢; omega
  · simp only [h0, if_false] at h ⊢
    cases ha : add_u64 p.total_deposits p.reserved_funds with
    | none => simp [ha, orPanic, Bind.bind, Except.bind] at h
    | some tv =>
      cases hm : mul_u64 tv 1000000 with
      | none => simp [ha, hm, orPanic, Bind.bind, Except.bind] at h
      | some sc =>
        simp [ha, hm, orPanic, Bind.bind, Except.bind] at h
        rw [mul_u64_some hm, add_u64_some ha] at h
        omega

/-- Every error of the NAV computation is an arithmetic-overflow abort. -/
theorem nav_error_eq {p : PoolAccount} {t : TxError}
    (h : calculate_nav_per_token p = .error t) : t = .arithmeticOverflow := by
  unfold calculate_nav_per_token at h
  by_cases h0 : p.total_deposits = 0
  · simp [h0] at h
  · simp only [h0, if_false] at h
    cases ha : add_u64 p.total_deposits p.reserved_funds with
    | none => simp [ha, orPanic, Bind.bind, Except.bind] at h; simp [h]
    | some tv =>
      cases hm : mul_u64 tv 1000000 with
      | none => simp [ha, hm, orPanic, Bind.bind, Except.bind] at h; simp [h]
      | some sc => simp [ha, hm, orPanic, Bind.bind, Except.bind] at h

/-- A successful redemption computation returns exactly the spec's
redemption formula. -/
theorem redemption_ok_eq_formula {a m c v : Nat}
    (h : calculate_redemption_value a m c = .ok v) :
    v = redemptionFormula a m c := by
  unfold calculate_redemption_value at h
  unfold redemptionFormula
  rw [checked_sub_getD] at h
  cases h1 : mul_u64 a m with
  | none => simp [h1, orPanic, Bind.bind, Except.bind] at h
  | some bn =>
    cases h2 : mul_u64 a (c - m) with
    | none => simp [h1, h2, orPanic, Bind.bind, Except.bind] at h
    | some an =>
      cases h3 : add_u64 (bn / 1000000) (an / 1000000) with
      | none => simp [h1, h2, h3, orPanic, Bind.bind, Except.bind] at h
      | some r =>
        simp [h1, h2, h3, orPanic, Bind.bind, Except.bind] at h
        rw [add_u64_some h3] at h
        rw [mul_u64_some h1, mul_u64_some h2] at h
        omega

/-- Every error of the redemption computation is an arithmetic-overflow
abort. -/
theorem redemption_error_eq {a m c : Nat} {t : TxError}
    (h : calculate_redemption_value a m c = .error t) :
    t = .arithmeticOverflow := by
  unfold calculate_redemption_value at h
  rw [checked_sub_getD] at h
  cases h1 : mul_u64 a m with
  | none => simp [h1, orPanic, Bind.bind, Except.bind] at h; simp [h]
  | some bn =>
    cases h2 : mul_u64 a (c - m) with
    | none => simp [h1, h2, orPanic, Bind.bind, Except.bind] at h; simp [h]
    | some an =>
      cases h3 : add_u64 (bn / 1000000) (an / 1000000) with
      | none => simp [h1, h2, h3, orPanic, Bind.bind, Except.bind] at h; simp [h]
      | some r => simp [h1, h2, h3, orPanic, Bind.bind, Except.bind] at h

/-- Characterize a successful burn: the NAV and redemption computations
succeeded and the three counters moved by exactly the computed values. -/
theorem burn_ok_claimed
    (pool : PoolAccount) (receipt : ReceiptTokenAccount) (own a : Pubkey)
    (amt : Nat) (att : AttestationData) (now : Int)
    (pool' : PoolAccount) (receipt' : ReceiptTokenAccount)
    (h : burn_receipt_tokens pool receipt own a amt att now = .ok (pool', receipt')) :
    ∃ n v, calculate_nav_per_token pool = .ok n ∧
      calculate_redemption_value amt receipt.nav_at_mint n = .ok v ∧
      receipt'.total_claimed = receipt.total_claimed + v ∧
      pool'.total_deposits = pool.total_deposits - amt ∧
      receipt'.amount = receipt.amount - amt ∧
      amt ≤ receipt.amount ∧ amt ≤ pool.total_deposits := by
  unfold burn_receipt_tokens at h
  by_cases h0 : pool.authority = a
  · rw [require_true h0] at h
    by_cases h1 : receipt.owner = own
    · rw [require_true h1] at h
      by_cases h2 : att.attestation_type = .NavUpdate
      · rw [require_true h2] at h
        by_cases h3 : amt ≤ receipt.amount
        · rw [require_true h3] at h
          cases hn : calculate_nav_per_token pool with
          | error t => simp [hn, Bind.bind, Except.bind] at h
          | ok n =>
            simp only [hn, Bind.bind, Except.bind] at h
            cases hv : calculate_redemption_value amt receipt.nav_at_mint n with
            | error t => simp [hv] at h
            | ok v =>
              simp only [hv] at h
              cases hd : checked_sub pool.total_deposits amt with
              | none => simp [hd, okOr] at h
              | some nd =>
                cases hra : checked_sub receipt.amount amt with
                | none => simp [hd, hra, okOr] at h
                | some na =>
                  cases hc : checked_add receipt.total_claimed v with
                  | none => simp [hd, hra, hc, okOr] at h
                  | some nc =>
                    simp only [hd, hra, hc, okOr, Except.ok.injEq, Prod.mk.injEq] at h
                    obtain ⟨hp, hr⟩ := h
                    refine ⟨n, v, rfl, hv, ?_, ?_, ?_, h3, (checked_sub_some hd).2⟩
                    · rw [← hr]; exact (checked_add_some hc).1
                    · rw [← hp]; exact (checked_sub_some hd).1
                    · rw [← hr]; exact (checked_sub_some hra).1
        · rw [require_false h3] at h
          simp [Bind.bind, Except.bind] at h
      · rw [require_false h2] at h
        simp [Bind.bind, Except.bind] at h
    · rw [require_false h1] at h
      simp [Bind.bind, Except.bind] at h
  · rw [require_false h0] at h
    simp [Bind.bind, Except.bind] at h

/-- Classify every error a burn can produce: an authorization failure,
an attestation-type failure, a funds/overflow check failure, or an
arithmetic abort — never `EmergencyPauseActive`. -/
theorem burn_error_cases
    (pool : PoolAccount) (receipt : ReceiptTokenAccount) (own a : Pubkey)
    (amt : Nat) (att : AttestationData) (now : Int) (e : TxError)
    (h : burn_receipt_tokens pool receipt own a amt att now = .error e) :
    e = .program .UnauthorizedAccess ∨ e = .program .InvalidAttestation ∨
    e = .program .InsufficientFunds ∨ e = .arithmeticOverflow := by
  unfold burn_receipt_tokens at h
  by_cases h0 : pool.authority = a
  · rw [require_true h0] at h
    by_cases h1 : receipt.owner = own
    · rw [require_true h1] at h
      by_cases h2 : att.attestation_type = .NavUpdate
      · rw [require_true h2] at h
        by_cases h3 : amt ≤ receipt.amount
        · rw [require_true h3] at h
          cases hn : calculate_nav_per_token pool with
          | error t =>
            simp [hn, Bind.bind, Except.bind] at h
            right; right; right
            rw [← h]
            exact nav_error_eq hn
          | ok n =>
            simp only [hn, Bind.bind, Except.bind] at h
            cases hv : calculate_redemption_value amt receipt.nav_at_mint n with
            | error t =>
              simp [hv] at h
              right; right; right
              rw [← h]
              exact redemption_error_eq hv
            | ok v =>
              simp only [hv] at h
              cases hd : checked_sub pool.total_deposits amt with
              | none => simp [hd, okOr] at h; simp [← h]
              | some nd =>
                cases hra : checked_sub receipt.amount amt with
                | none => simp [hd, hra, okOr] at h; simp [← h]
                | some na =>
                  cases hc : checked_add receipt.total_claimed v with
                  | none => simp [hd, hra, hc, okOr] at h; simp [← h]
                  | some nc => simp [hd, hra, hc, okOr] at h
        · rw [require_false h3] at h
          simp [Bind.bind, Except.bind] at h; simp [← h]
      · rw [require_false h2] at h
        simp [Bind.bind, Except.bind] at h; simp [← h]
    · rw [require_false h1] at h
      simp [Bind.bind, Except.bind] at h; simp [← h]
  · rw [require_false h0] at h
    simp [Bind.bind, Except.bind] at h; simp [← h]

/-! ## Claim theorems -/

/-- C1: with the account checks satisfied (matching authority and loan
id), `update_loan_status` applies the change exactly when the
(current, target) status pair is one of the six permitted edges; on any
other pair it fails with `InvalidLoanStatusTransition` and the committed
stored status is unchanged. -/
theorem update_loan_status_transition_graph
    (loan_commit : LoanCommit) (pool_account : PoolAccount) (authority : Pubkey)
    (loan_id : Hash32) (status : LoanStatus) (att : AttestationData) (now : Int)
    (hauth : pool_account.authority = authority)
    (hid : loan_commit.loan_id = loan_id) :
    (allowedTransition loan_commit.status status = true →
      update_loan_status loan_commit pool_account authority loan_id status att now =
        .ok { loan_commit with status := status, updated_at := now }) ∧
    (allowedTransition loan_commit.status status = false →
      update_loan_status loan_commit pool_account authority loan_id status att now =
        .error (.program .InvalidLoanStatusTransition) ∧
      committed (update_loan_status loan_commit pool_account authority loan_id status att now)
        loan_commit = loan_commit) := by
  unfold update_loan_status
  rw [require_true hauth, require_true hid]
  cases h : loan_commit.status <;> cases status <;>
    simp_all [allowedTransition, committed, Bind.bind, Except.bind]

/-- C1 witness: the Pending loan cannot move straight to `Active`, and
can move to `Approved`. -/
theorem update_loan_status_transition_graph_witness :
    testPool.authority = 2 ∧ testLoan.loan_id = 7 ∧
    (allowedTransition testLoan.status .Active = false →
      update_loan_status testLoan testPool 2 7 .Active navAtt 0 =
        .error (.program .InvalidLoanStatusTransition) ∧
      committed (update_loan_status testLoan testPool 2 7 .Active navAtt 0)
        testLoan = testLoan) ∧
    (allowedTransition testLoan.status .Approved = true →
      update_loan_status testLoan testPool 2 7 .Approved navAtt 0 =
        .ok { testLoan with status := .Approved, updated_at := 0 }) :=
  ⟨rfl, rfl,
   (update_loan_status_transition_graph testLoan testPool 2 7 .Active navAtt 0
     rfl rfl).2,
   (update_loan_status_transition_graph testLoan testPool 2 7 .Approved navAtt 0
     rfl rfl).1⟩

/-- C2: contrary to the claim, `update_loan_status` never consults the
supplied attestation — its result is the same for any two attestation
inputs — and a `Pending → Approved` transition succeeds even when driven
by an attestation with an empty signer set, which no verification
(even the stubbed threshold check) could ever accept. -/
theorem update_loan_status_accepts_unverified_attestation :
    (∀ (lc : LoanCommit) (p : PoolAccount) (a : Pubkey) (lid : Hash32)
       (st : LoanStatus) (a₁ a₂ : AttestationData) (now : Int),
       update_loan_status lc p a lid st a₁ now =
       update_loan_status lc p a lid st a₂ now) ∧
    update_loan_status testLoan testPool 2 7 .Approved
      (emptySignerAtt .LoanApproval (.LoanApproval 7 11 500)) 0 =
      .ok { testLoan with status := .Approved, updated_at := 0 } ∧
    verify_threshold_signature
      (((emptySignerAtt .LoanApproval (.LoanApproval 7 11 500)).signer_pubkeys.zip
          (emptySignerAtt .LoanApproval (.LoanApproval 7 11 500)).signatures).map
        (fun ps => { pubkey := ps.1, signature := ps.2, weight := 1 })) =
      .ok false := by
  refine ⟨fun lc p a lid st a₁ a₂ now => rfl, rfl, rfl⟩

/-- C3: the stubbed threshold check rejects the empty signer set but
accepts any non-empty one — here a single signer of weight 1 passes
although the attestation's declared threshold (2, or any other value) is
never consulted, contradicting the claimed summed-weight test. -/
theorem verify_threshold_signature_ignores_threshold :
    verify_threshold_signature [] = .ok false ∧
    verify_threshold_signature [{ pubkey := 5, signature := 6, weight := 1 }] =
      .ok true ∧
    (∀ sm : List SignerMeta,
      verify_threshold_signature sm = .ok (decide (sm ≠ []))) := by
  refine ⟨rfl, rfl, fun sm => ?_⟩
  cases sm <;> simp [verify_threshold_signature]

/-- C4: on a stored record whose hash matches the input hash and that is
still as submitted (`verified = false`), `verify_attestation` returns
the threshold-check verdict without aborting, sets `verified = true`
exactly when the check succeeds, and leaves the record untouched when it
fails. -/
theorem verify_attestation_flag_iff_threshold
    (r : AttestationRecord) (h : Hash32)
    (hmatch : r.attestation_hash = h) (hsub : r.verified = false) :
    ∃ b r', verify_attestation r h = .ok (b, r') ∧
      verify_threshold_signature r.signer_meta = .ok b ∧
      r'.verified = b ∧ (b = false → r' = r) := by
  unfold verify_attestation
  rw [require_true hmatch]
  unfold verify_threshold_signature
  by_cases he : r.signer_meta.isEmpty
  · exact ⟨false, r, by simp [he, Bind.bind, Except.bind], by simp [he], hsub,
      fun _ => rfl⟩
  · exact ⟨true, { r with verified := true },
      by simp [he, Bind.bind, Except.bind], by simp [he], rfl, by simp⟩

/-- C4 witness: a submitted record with an empty signer list and
matching hash keeps `verified = false` and gets verdict `false`. -/
theorem verify_attestation_flag_iff_threshold_witness :
    (({ attestation_hash := 9, signer_meta := [], payload_hash := 10,
        timestamp := 0, verified := false, bump := 251 } :
        AttestationRecord).attestation_hash = 9) ∧
    (({ attestation_hash := 9, signer_meta := [], payload_hash := 10,
        timestamp := 0, verified := false, bump := 251 } :
        AttestationRecord).verified = false) ∧
    ∃ b r', verify_attestation
        { attestation_hash := 9, signer_meta := [], payload_hash := 10,
          timestamp := 0, verified := false, bump := 251 } 9 = .ok (b, r') ∧
      verify_threshold_signature
        ({ attestation_hash := 9, signer_meta := [], payload_hash := 10,
           timestamp := 0, verified := false, bump := 251 } :
           AttestationRecord).signer_meta = .ok b ∧
      r'.verified = b ∧
      (b = false → r' =
        { attestation_hash := 9, signer_meta := [], payload_hash := 10,
          timestamp := 0, verified := false, bump := 251 }) :=
  ⟨rfl, rfl, verify_attestation_flag_iff_threshold _ 9 rfl rfl⟩

/-- C5 counterexample: on a paused pool an invalid new config (here
`max_loan_amount = 0`) is rejected with `InvalidPoolConfig`, not
`EmergencyPauseActive`, because config validation runs before the pause
check — refuting the claim that every proposed config fails with
`EmergencyPauseActive`. -/
theorem update_pool_config_paused_error_not_always_pause :
    pausedPool.config.emergency_pause = true ∧
    pausedPool.authority = 2 ∧
    update_pool_config pausedPool 2 invalidConfig 0 =
      .error (.program .InvalidPoolConfig) ∧
    update_pool_config pausedPool 2 invalidConfig 0 ≠
      .error (.program .EmergencyPauseActive) := by
  refine ⟨rfl, rfl, rfl, ?_⟩
  intro h
  have h2 : (Except.error (TxError.program PrivateCreditError.InvalidPoolConfig) :
      Except TxError PoolAccount) =
      .error (.program .EmergencyPauseActive) := h
  simp at h2

/-- C5 (amended): on a paused pool every authorized `update_pool_config`
call fails and the committed pool record is unchanged; the error is
`EmergencyPauseActive` exactly when the proposed config satisfies the
config invariants (including configs that would clear the pause), and
`InvalidPoolConfig` otherwise. -/
theorem update_pool_config_rejected_while_paused
    (pool : PoolAccount) (authority : Pubkey) (c : PoolConfig) (now : Int)
    (hauth : pool.authority = authority)
    (hpause : pool.config.emergency_pause = true) :
    (validPoolConfig c →
      update_pool_config pool authority c now =
        .error (.program .EmergencyPauseActive)) ∧
    (¬ validPoolConfig c →
      update_pool_config pool authority c now =
        .error (.program .InvalidPoolConfig)) ∧
    committed (update_pool_config pool authority c now) pool = pool := by
  have hp : ¬ pool.config.emergency_pause = false := by simp [hpause]
  unfold update_pool_config
  rw [require_true hauth]
  by_cases h1 : 0 < c.max_loan_amount
  · by_cases h2 : c.min_loan_amount ≤ c.max_loan_amount
    · by_cases h3 : c.interest_rate_bps ≤ 10000
      · rw [require_true h1, require_true h2, require_true h3, require_false hp]
        refine ⟨fun _ => rfl, fun hbad => absurd ⟨h2, h1, h3⟩ hbad, rfl⟩
      · rw [require_true h1, require_true h2, require_false h3]
        exact ⟨fun hv => absurd hv.2.2 h3, fun _ => rfl, rfl⟩
    · rw [require_true h1, require_false h2]
      exact ⟨fun hv => absurd hv.1 h2, fun _ => rfl, rfl⟩
  · rw [require_false h1]
    exact ⟨fun hv => absurd hv.2.1 h1, fun _ => rfl, rfl⟩

/-- C5 witness: on the paused pool, the valid config `testConfig`
(which would clear the pause) is rejected with `EmergencyPauseActive`
and the pool is unchanged. -/
theorem update_pool_config_rejected_while_paused_witness :
    pausedPool.authority = 2 ∧
    pausedPool.config.emergency_pause = true ∧
    validPoolConfig testConfig ∧
    ((validPoolConfig testConfig →
       update_pool_config pausedPool 2 testConfig 0 =
         .error (.program .EmergencyPauseActive)) ∧
     (¬ validPoolConfig testConfig →
       update_pool_config pausedPool 2 testConfig 0 =
         .error (.program .InvalidPoolConfig)) ∧
     committed (update_pool_config pausedPool 2 testConfig 0) pausedPool =
       pausedPool) :=
  ⟨rfl, rfl, by decide,
   update_pool_config_rejected_while_paused pausedPool 2 testConfig 0 rfl rfl⟩

/-- C6: a config violating any of the three invariants is rejected by
`initialize_pool` and by an authorized `update_pool_config` with
`InvalidPoolConfig`, leaving the committed pool unchanged; conversely
every pool either operation stores satisfies the invariants, and the
other pool-mutating operations (`mint_receipt_tokens`,
`burn_receipt_tokens`) never change the stored config — so every stored
pool's config satisfies the invariants. -/
theorem pool_config_invariants_enforced :
    (∀ (o a m e : Pubkey) (c : PoolConfig) (now : Int) (bump : Nat),
      ¬ validPoolConfig c →
      initialize_pool o a m e c now bump = .error (.program .InvalidPoolConfig)) ∧
    (∀ (pool : PoolAccount) (a : Pubkey) (c : PoolConfig) (now : Int),
      pool.authority = a → ¬ validPoolConfig c →
      update_pool_config pool a c now = .error (.program .InvalidPoolConfig) ∧
      committed (update_pool_config pool a c now) pool = pool) ∧
    (∀ (o a m e : Pubkey) (c : PoolConfig) (now : Int) (bump : Nat)
       (p' : PoolAccount),
      initialize_pool o a m e c now bump = .ok p' → validPoolConfig p'.config) ∧
    (∀ (pool : PoolAccount) (a : Pubkey) (c : PoolConfig) (now : Int)
       (p' : PoolAccount),
      update_pool_config pool a c now = .ok p' → validPoolConfig p'.config) ∧
    (∀ (pool : PoolAccount) (receipt : ReceiptTokenAccount) (rec mnt a : Pubkey)
       (amt : Nat) (att : AttestationData) (now : Int) (bump : Nat)
       (pool' : PoolAccount) (receipt' : ReceiptTokenAccount),
      mint_receipt_tokens pool receipt rec mnt a amt att now bump =
        .ok (pool', receipt') → pool'.config = pool.config) ∧
    (∀ (pool : PoolAccount) (receipt : ReceiptTokenAccount) (own a : Pubkey)
       (amt : Nat) (att : AttestationData) (now : Int)
       (pool' : PoolAccount) (receipt' : ReceiptTokenAccount),
      burn_receipt_tokens pool receipt own a amt att now =
        .ok (pool', receipt') → pool'.config = pool.config) := by
  refine ⟨?_, ?_, ?_, ?_, ?_, ?_⟩
  · intro o a m e c now bump hbad
    unfold initialize_pool
    by_cases h1 : 0 < c.max_loan_amount
    · by_cases h2 : c.min_loan_amount ≤ c.max_loan_amount
      · by_cases h3 : c.interest_rate_bps ≤ 10000
        · exact absurd ⟨h2, h1, h3⟩ hbad
        · rw [require_true h1, require_true h2, require_false h3]; rfl
      · rw [require_true h1, require_false h2]; rfl
    · rw [require_false h1]; rfl
  · intro pool a c now hauth hbad
    unfold update_pool_config
    rw [require_true hauth]
    by_cases h1 : 0 < c.max_loan_amount
    · by_cases h2 : c.min_loan_amount ≤ c.max_loan_amount
      · by_cases h3 : c.interest_rate_bps ≤ 10000
        · exact absurd ⟨h2, h1, h3⟩ hbad
        · rw [require_true h1, require_true h2, require_false h3]; exact ⟨rfl, rfl⟩
      · rw [require_true h1, require_false h2]; exact ⟨rfl, rfl⟩
    · rw [require_false h1]; exact ⟨rfl, rfl⟩
  · intro o a m e c now bump p' h
    unfold initialize_pool at h
    by_cases h1 : 0 < c.max_loan_amount
    · by_cases h2 : c.min_loan_amount ≤ c.max_loan_amount
      · by_cases h3 : c.interest_rate_bps ≤ 10000
        · rw [require_true h1, require_true h2, require_true h3] at h
          simp [Bind.bind, Except.bind] at h
          rw [← h]
          exact ⟨h2, h1, h3⟩
        · rw [require_true h1, require_true h2, require_false h3] at h
          simp [Bind.bind, Except.bind] at h
      · rw [require_true h1, require_false h2] at h
        simp [Bind.bind, Except.bind] at h
    · rw [require_false h1] at h
      simp [Bind.bind, Except.bind] at h
  · intro pool a c now p' h
    unfold update_pool_config at h
    by_cases h0 : pool.authority = a
    · rw [require_true h0] at h
      by_cases h1 : 0 < c.max_loan_amount
      · by_cases h2 : c.min_loan_amount ≤ c.max_loan_amount
        · by_cases h3 : c.interest_rate_bps ≤ 10000
          · rw [require_true h1, require_true h2, require_true h3] at h
            by_cases h4 : pool.config.emergency_pause = false
            · rw [require_true h4] at h
              simp [Bind.bind, Except.bind] at h
              rw [← h]
              exact ⟨h2, h1, h3⟩
            · rw [require_false h4] at h
              simp [Bind.bind, Except.bind] at h
          · rw [require_true h1, require_true h2, require_false h3] at h
            simp [Bind.bind, Except.bind] at h
        · rw [require_true h1, require_false h2] at h
          simp [Bind.bind, Except.bind] at h
      · rw [require_false h1] at h
        simp [Bind.bind, Except.bind] at h
    · rw [require_false h0] at h
      simp [Bind.bind, Except.bind] at h
  · intro pool receipt recip mnt a amt att now bump pool' receipt' h
    unfold mint_receipt_tokens at h
    simp only [require, okOr, Bind.bind, Except.bind] at h
    repeat' split at h
    all_goals simp_all
    all_goals rw [← h.1]
  · intro pool receipt own a amt att now pool' receipt' h
    unfold burn_receipt_tokens at h
    simp only [require, okOr, Bind.bind, Except.bind] at h
    repeat' split at h
    all_goals simp_all
    all_goals rw [← h.1]

/-- C6 witness: the invalid config is rejected by both operations on the
concrete pool, a successful initialization stores a valid config, and
nothing else is claimed. -/
theorem pool_config_invariants_enforced_witness :
    ¬ validPoolConfig invalidConfig ∧ testPool.authority = 2 ∧
    initialize_pool 1 2 3 4 invalidConfig 0 255 =
      .error (.program .InvalidPoolConfig) ∧
    (update_pool_config testPool 2 invalidConfig 0 =
       .error (.program .InvalidPoolConfig) ∧
     committed (update_pool_config testPool 2 invalidConfig 0) testPool =
       testPool) ∧
    (initialize_pool 1 2 3 4 testConfig 0 255 = .ok testPool →
      validPoolConfig testPool.config) :=
  ⟨by decide, rfl,
   pool_config_invariants_enforced.1 1 2 3 4 invalidConfig 0 255 (by decide),
   pool_config_invariants_enforced.2.1 testPool 2 invalidConfig 0 rfl (by decide),
   pool_config_invariants_enforced.2.2.1 1 2 3 4 testConfig 0 255 testPool⟩

/-- C7: every successful burn of `amt` units records a redemption value
of exactly `amt * nav_at_mint / 1_000_000 +
amt * max(0, current_nav − nav_at_mint) / 1_000_000` (integer division,
`current_nav` the NAV formula over the pre-burn pool); at
`current_nav = nav_at_mint` this is exactly the base value, and the
formula is non-decreasing in `current_nav − nav_at_mint`. -/
theorem burn_redemption_value_exact
    (pool : PoolAccount) (receipt : ReceiptTokenAccount) (own a : Pubkey)
    (amt : Nat) (att : AttestationData) (now : Int)
    (pool' : PoolAccount) (receipt' : ReceiptTokenAccount)
    (h : burn_receipt_tokens pool receipt own a amt att now = .ok (pool', receipt')) :
    receipt'.total_claimed = receipt.total_claimed +
      redemptionFormula amt receipt.nav_at_mint (navFormula pool) ∧
    (navFormula pool = receipt.nav_at_mint →
      receipt'.total_claimed = receipt.total_claimed +
        amt * receipt.nav_at_mint / 1000000) ∧
    (∀ m c₁ c₂ : Nat, c₁ - m ≤ c₂ - m →
      redemptionFormula amt m c₁ ≤ redemptionFormula amt m c₂) := by
  obtain ⟨n, v, hn, hv, hcl, _, _, _, _⟩ :=
    burn_ok_claimed pool receipt own a amt att now pool' receipt' h
  have hnf : n = navFormula pool := nav_ok_eq_formula hn
  have hvf : v = redemptionFormula amt receipt.nav_at_mint n :=
    redemption_ok_eq_formula hv
  subst hnf
  refine ⟨by rw [hcl, hvf], ?_, ?_⟩
  · intro heq
    rw [hcl, hvf, heq]
    simp [redemptionFormula]
  · intro m c₁ c₂ hd
    unfold redemptionFormula
    exact Nat.add_le_add_left
      (Nat.div_le_div_right (Nat.mul_le_mul_left amt hd)) _

/-- C7 witness: burning the 5 held units at unchanged unit NAV records a
redemption value of exactly 5. -/
theorem burn_redemption_value_exact_witness :
    burn_receipt_tokens burnPool testReceipt 21 2 5 navAtt 0 =
      .ok ({ burnPool with total_deposits := 95 },
           { testReceipt with amount := 0, total_claimed := 5 }) ∧
    (({ testReceipt with amount := 0, total_claimed := 5 } :
        ReceiptTokenAccount).total_claimed =
      testReceipt.total_claimed +
        redemptionFormula 5 testReceipt.nav_at_mint (navFormula burnPool) ∧
    (navFormula burnPool = testReceipt.nav_at_mint →
      ({ testReceipt with amount := 0, total_claimed := 5 } :
          ReceiptTokenAccount).total_claimed =
        testReceipt.total_claimed + 5 * testReceipt.nav_at_mint / 1000000) ∧
    (∀ m c₁ c₂ : Nat, c₁ - m ≤ c₂ - m →
      redemptionFormula 5 m c₁ ≤ redemptionFormula 5 m c₂)) :=
  ⟨rfl, burn_redemption_value_exact burnPool testReceipt 21 2 5 navAtt 0
    { burnPool with total_deposits := 95 }
    { testReceipt with amount := 0, total_claimed := 5 } rfl⟩

/-- C8: contrary to the claim, `grant_audit_access` approves a pending
request without any attestation verification: its result depends on the
attestation only through the type tag (signatures, signer set and
threshold are ignored), and a matching `AuditGrant` attestation with an
empty signer set — which no verification, even the stubbed threshold
check, could accept — still moves the request to `Approved`. -/
theorem grant_audit_access_accepts_unverified_attestation :
    grant_audit_access pendingRequest testPool 2 7 41 auditAtt 0 =
      .ok { pendingRequest with status := .Approved, granted_at := some 0 } ∧
    verify_threshold_signature
      ((auditAtt.signer_pubkeys.zip auditAtt.signatures).map
        (fun ps => { pubkey := ps.1, signature := ps.2, weight := 1 })) =
      .ok false ∧
    (∀ (req : AuditRequest) (p : PoolAccount) (auth : Pubkey) (lid : Hash32)
       (aud : Pubkey) (att : AttestationData) (now : Int),
      grant_audit_access req p auth lid aud att now =
        grant_audit_access req p auth lid aud
          { att with signatures := [], signer_pubkeys := [], threshold := 0 }
          now) :=
  ⟨rfl, rfl, fun req p auth lid aud att now => rfl⟩

/-- C9: a failed operation commits nothing: whenever one of the
record-mutating operations returns an error the committed records equal
their pre-state, a failed creating operation stores no record, and in
particular a mint whose receipt-balance overflow check fails aborts with
`InsufficientFunds` (so its earlier provisional `total_deposits`
increase is discarded by the commit rule). -/
theorem failed_operations_commit_nothing :
    (∀ (pool : PoolAccount) (a : Pubkey) (c : PoolConfig) (now : Int)
       (e : TxError), update_pool_config pool a c now = .error e →
      committed (update_pool_config pool a c now) pool = pool) ∧
    (∀ (lc : LoanCommit) (pool : PoolAccount) (a : Pubkey) (lid : Hash32)
       (st : LoanStatus) (att : AttestationData) (now : Int) (e : TxError),
      update_loan_status lc pool a lid st att now = .error e →
      committed (update_loan_status lc pool a lid st att now) lc = lc) ∧
    (∀ (r : AttestationRecord) (hsh : Hash32) (e : TxError) (b : Bool),
      verify_attestation r hsh = .error e →
      committed (verify_attestation r hsh) (b, r) = (b, r)) ∧
    (∀ (pool : PoolAccount) (receipt : ReceiptTokenAccount) (recip mnt a : Pubkey)
       (amt : Nat) (att : AttestationData) (now : Int) (bump : Nat) (e : TxError),
      mint_receipt_tokens pool receipt recip mnt a amt att now bump = .error e →
      committed (mint_receipt_tokens pool receipt recip mnt a amt att now bump)
        (pool, receipt) = (pool, receipt)) ∧
    (∀ (pool : PoolAccount) (receipt : ReceiptTokenAccount) (own a : Pubkey)
       (amt : Nat) (att : AttestationData) (now : Int) (e : TxError),
      burn_receipt_tokens pool receipt own a amt att now = .error e →
      committed (burn_receipt_tokens pool receipt own a amt att now)
        (pool, receipt) = (pool, receipt)) ∧
    (∀ (req : AuditRequest) (pool : PoolAccount) (auth : Pubkey) (lid : Hash32)
       (aud : Pubkey) (att : AttestationData) (now : Int) (e : TxError),
      grant_audit_access req pool auth lid aud att now = .error e →
      committed (grant_audit_access req pool auth lid aud att now) req = req) ∧
    (∀ (o a m esc : Pubkey) (c : PoolConfig) (now : Int) (bump : Nat)
       (e : TxError), initialize_pool o a m esc c now bump = .error e →
      (initialize_pool o a m esc c now bump).toOption = none) ∧
    (∀ (pool : PoolAccount) (a : Pubkey) (d : LoanCommitData) (now : Int)
       (bump : Nat) (e : TxError),
      create_loan_commit pool a d now bump = .error e →
      (create_loan_commit pool a d now bump).toOption = none) ∧
    (∀ (f : AttestationData → Hash32) (g : AttestationPayload → Hash32)
       (d : AttestationData) (now : Int) (bump : Nat) (e : TxError),
      submit_attestation f g d now bump = .error e →
      (submit_attestation f g d now bump).toOption = none) ∧
    (∀ (f : Hash32 → Pubkey → Hash32) (req : Pubkey) (lid : Hash32)
       (aud : Pubkey) (loh : Hash32) (now : Int) (bump : Nat) (e : TxError),
      request_audit f req lid aud loh now bump = .error e →
      (request_audit f req lid aud loh now bump).toOption = none) ∧
    (∀ (pool : PoolAccount) (receipt : ReceiptTokenAccount)
       (recip mnt a : Pubkey) (amt : Nat) (att : AttestationData) (now : Int)
       (bump : Nat) (n : Nat),
      pool.authority = a → att.attestation_type = .NavUpdate →
      calculate_nav_per_token pool = .ok n →
      pool.config.emergency_pause = false →
      pool.total_deposits + amt < U64_LIMIT →
      U64_LIMIT ≤ receipt.amount + amt →
      mint_receipt_tokens pool receipt recip mnt a amt att now bump =
        .error (.program .InsufficientFunds)) := by
  refine ⟨?_, ?_, ?_, ?_, ?_, ?_, ?_, ?_, ?_, ?_, ?_⟩
  · intro pool a c now e h; simp [committed, h]
  · intro lc pool a lid st att now e h; simp [committed, h]
  · intro r hsh e b h; simp [committed, h]
  · intro pool receipt recip mnt a amt att now bump e h; simp [committed, h]
  · intro pool receipt own a amt att now e h; simp [committed, h]
  · intro req pool auth lid aud att now e h; simp [committed, h]
  · intro o a m esc c now bump e h; simp [Except.toOption, h]
  · intro pool a d now bump e h; simp [Except.toOption, h]
  · intro f g d now bump e h; simp [Except.toOption, h]
  · intro f req lid aud loh now bump e h; simp [Except.toOption, h]
  · intro pool receipt recip mnt a amt att now bump n
      hauth htype hnav hpause hdep hrec
    simp only [U64_LIMIT] at hdep hrec
    norm_num at hdep hrec
    unfold mint_receipt_tokens
    rw [require_true hauth, require_true htype, hnav]
    simp only [Bind.bind, Except.bind]
    rw [require_true hpause]
    have hd : checked_add pool.total_deposits amt =
        some (pool.total_deposits + amt) := by
      simp only [checked_add, U64_LIMIT]
      norm_num
      omega
    rw [hd]
    simp only [okOr]
    by_cases hz : receipt.amount = 0
    · have hnone : checked_add 0 amt = none := by
        simp only [checked_add, U64_LIMIT]
        norm_num
        omega
      simp [hz, hnone, okOr]
    · have hnone : checked_add receipt.amount amt = none := by
        simp only [checked_add, U64_LIMIT]
        norm_num
        omega
      simp [hz, hnone, okOr]

/-- C9 witness: each operation, on a concrete failing input, commits
nothing. -/
theorem failed_operations_commit_nothing_witness :
    (update_pool_config testPool 999 testConfig 0 =
       .error (.program .UnauthorizedAccess) ∧
     committed (update_pool_config testPool 999 testConfig 0) testPool =
       testPool) ∧
    (update_loan_status testLoan testPool 2 7 .Repaid navAtt 0 =
       .error (.program .InvalidLoanStatusTransition) ∧
     committed (update_loan_status testLoan testPool 2 7 .Repaid navAtt 0)
       testLoan = testLoan) ∧
    (verify_attestation testRecord 999 = .error (.program .InvalidAttestation) ∧
     committed (verify_attestation testRecord 999) (false, testRecord) =
       (false, testRecord)) ∧
    (mint_receipt_tokens pausedPool testReceipt 21 3 2 10 navAtt 0 253 =
       .error (.program .EmergencyPauseActive) ∧
     committed (mint_receipt_tokens pausedPool testReceipt 21 3 2 10 navAtt 0 253)
       (pausedPool, testReceipt) = (pausedPool, testReceipt)) ∧
    (burn_receipt_tokens testPool testReceipt 21 2 5 navAtt 0 =
       .error (.program .InsufficientFunds) ∧
     committed (burn_receipt_tokens testPool testReceipt 21 2 5 navAtt 0)
       (testPool, testReceipt) = (testPool, testReceipt)) ∧
    (grant_audit_access approvedRequest testPool 2 7 41 auditAtt 0 =
       .error (.program .AuditRequestDenied) ∧
     committed (grant_audit_access approvedRequest testPool 2 7 41 auditAtt 0)
       approvedRequest = approvedRequest) ∧
    (initialize_pool 1 2 3 4 invalidConfig 0 255 =
       .error (.program .InvalidPoolConfig) ∧
     (initialize_pool 1 2 3 4 invalidConfig 0 255).toOption = none) ∧
    (create_loan_commit testPool 2 lowAmountData 0 254 =
       .error (.program .InvalidLoanCommit) ∧
     (create_loan_commit testPool 2 lowAmountData 0 254).toOption = none) ∧
    (request_audit (fun lid aud => lid + aud) 31 7 41 0 0 252 =
       .error (.program .LegalOrderVerificationFailed) ∧
     (request_audit (fun lid aud => lid + aud) 31 7 41 0 0 252).toOption =
       none) ∧
    (testPool.authority = 2 ∧ navAtt.attestation_type = .NavUpdate ∧
     calculate_nav_per_token testPool = .ok 1000000 ∧
     testPool.config.emergency_pause = false ∧
     testPool.total_deposits + 1 < U64_LIMIT ∧
     U64_LIMIT ≤ maxReceipt.amount + 1 ∧
     mint_receipt_tokens testPool maxReceipt 21 3 2 1 navAtt 0 253 =
       .error (.program .InsufficientFunds)) :=
  ⟨⟨rfl, failed_operations_commit_nothing.1 testPool 999 testConfig 0
      (.program .UnauthorizedAccess) rfl⟩,
   ⟨rfl, failed_operations_commit_nothing.2.1 testLoan testPool 2 7 .Repaid
      navAtt 0 (.program .InvalidLoanStatusTransition) rfl⟩,
   ⟨rfl, failed_operations_commit_nothing.2.2.1 testRecord 999
      (.program .InvalidAttestation) false rfl⟩,
   ⟨rfl, failed_operations_commit_nothing.2.2.2.1 pausedPool testReceipt 21 3 2
      10 navAtt 0 253 (.program .EmergencyPauseActive) rfl⟩,
   ⟨rfl, failed_operations_commit_nothing.2.2.2.2.1 testPool testReceipt 21 2 5
      navAtt 0 (.program .InsufficientFunds) rfl⟩,
   ⟨rfl, failed_operations_commit_nothing.2.2.2.2.2.1 approvedRequest testPool
      2 7 41 auditAtt 0 (.program .AuditRequestDenied) rfl⟩,
   ⟨rfl, failed_operations_commit_nothing.2.2.2.2.2.2.1 1 2 3 4 invalidConfig 0
      255 (.program .InvalidPoolConfig) rfl⟩,
   ⟨rfl, failed_operations_commit_nothing.2.2.2.2.2.2.2.1 testPool 2
      lowAmountData 0 254 (.program .InvalidLoanCommit) rfl⟩,
   ⟨rfl, failed_operations_commit_nothing.2.2.2.2.2.2.2.2.2.1
      (fun lid aud => lid + aud) 31 7 41 0 0 252
      (.program .LegalOrderVerificationFailed) rfl⟩,
   ⟨rfl, rfl, rfl, rfl, by decide, by decide,
    failed_operations_commit_nothing.2.2.2.2.2.2.2.2.2.2 testPool maxReceipt
      21 3 2 1 navAtt 0 253 1000000 rfl rfl rfl rfl (by decide) (by decide)⟩⟩

/-- C10 counterexample: on a paused pool with zero `total_deposits`, a
burn by the right owner with a `NavUpdate` attestation and held amount
(5) ≥ burn amount (5) still fails — with `InsufficientFunds` from the
pool-deposit underflow check, not with `EmergencyPauseActive` — so the
claim's unconditional "succeeds" is false. -/
theorem burn_on_paused_pool_can_still_fail :
    pausedPool.config.emergency_pause = true ∧
    pausedPool.authority = 2 ∧ testReceipt.owner = 21 ∧
    navAtt.attestation_type = .NavUpdate ∧ 5 ≤ testReceipt.amount ∧
    burn_receipt_tokens pausedPool testReceipt 21 2 5 navAtt 0 =
      .error (.program .InsufficientFunds) ∧
    (Except.error (TxError.program .InsufficientFunds) :
      Except TxError (PoolAccount × ReceiptTokenAccount)) ≠
      .error (.program .EmergencyPauseActive) := by
  refine ⟨rfl, rfl, rfl, rfl, by decide, rfl, by simp⟩

/-- C10 (amended): `burn_receipt_tokens` is never rejected with
`EmergencyPauseActive`; with a `NavUpdate` attestation, matching
owner/authority, held ≥ burn amount, pool deposits ≥ burn amount, and
in-range arithmetic it succeeds; the pause flag does gate
`mint_receipt_tokens` and `update_pool_config`. -/
theorem burn_not_pause_gated :
    (∀ (pool : PoolAccount) (receipt : ReceiptTokenAccount) (own a : Pubkey)
       (amt : Nat) (att : AttestationData) (now : Int) (e : TxError),
      burn_receipt_tokens pool receipt own a amt att now = .error e →
      e ≠ .program .EmergencyPauseActive) ∧
    (∀ (pool : PoolAccount) (receipt : ReceiptTokenAccount) (own a : Pubkey)
       (amt : Nat) (att : AttestationData) (now : Int) (n v : Nat),
      pool.authority = a → receipt.owner = own →
      att.attestation_type = .NavUpdate →
      amt ≤ receipt.amount → amt ≤ pool.total_deposits →
      calculate_nav_per_token pool = .ok n →
      calculate_redemption_value amt receipt.nav_at_mint n = .ok v →
      receipt.total_claimed + v < U64_LIMIT →
      burn_receipt_tokens pool receipt own a amt att now =
        .ok ({ pool with total_deposits := pool.total_deposits - amt },
             { receipt with
                 amount := receipt.amount - amt,
                 total_claimed := receipt.total_claimed + v })) ∧
    (∀ (pool : PoolAccount) (receipt : ReceiptTokenAccount)
       (recip mnt a : Pubkey) (amt : Nat) (att : AttestationData) (now : Int)
       (bump n : Nat),
      pool.authority = a → att.attestation_type = .NavUpdate →
      calculate_nav_per_token pool = .ok n →
      pool.config.emergency_pause = true →
      mint_receipt_tokens pool receipt recip mnt a amt att now bump =
        .error (.program .EmergencyPauseActive)) ∧
    (∀ (pool : PoolAccount) (a : Pubkey) (c : PoolConfig) (now : Int),
      pool.authority = a → validPoolConfig c →
      pool.config.emergency_pause = true →
      update_pool_config pool a c now =
        .error (.program .EmergencyPauseActive)) := by
  refine ⟨?_, ?_, ?_, ?_⟩
  · intro pool receipt own a amt att now e h
    rcases burn_error_cases pool receipt own a amt att now e h with
      h' | h' | h' | h' <;> subst h' <;> simp
  · intro pool receipt own a amt att now n v hauth hown htype hbal hdep hnav
      hred hcl
    unfold burn_receipt_tokens
    rw [require_true hauth, require_true hown, require_true htype,
      require_true hbal, hnav]
    have h1 : checked_sub pool.total_deposits amt =
        some (pool.total_deposits - amt) := by simp [checked_sub, hdep]
    have h2 : checked_sub receipt.amount amt = some (receipt.amount - amt) := by
      simp [checked_sub, hbal]
    have h3 : checked_add receipt.total_claimed v =
        some (receipt.total_claimed + v) := by simp [checked_add, hcl]
    simp only [Bind.bind, Except.bind, hred, h1, h2, h3, okOr]
  · intro pool receipt recip mnt a amt att now bump n hauth htype hnav hpause
    have hp : ¬ pool.config.emergency_pause = false := by simp [hpause]
    unfold mint_receipt_tokens
    rw [require_true hauth, require_true htype, hnav]
    simp only [Bind.bind, Except.bind]
    rw [require_false hp]
  · intro pool a c now hauth hv hpause
    have hp : ¬ pool.config.emergency_pause = false := by simp [hpause]
    unfold update_pool_config
    rw [require_true hauth, require_true hv.2.1, require_true hv.1,
      require_true hv.2.2, require_false hp]
    simp [Bind.bind, Except.bind]

/-- C10 witness: the paused-pool burn from the counterexample fails with
an error other than `EmergencyPauseActive`; a concrete in-range burn
succeeds; and mint and config-update on the paused pool fail with
`EmergencyPauseActive`. -/
theorem burn_not_pause_gated_witness :
    ((burn_receipt_tokens pausedPool testReceipt 21 2 5 navAtt 0 =
        .error (.program .InsufficientFunds)) ∧
      TxError.program .InsufficientFunds ≠ .program .EmergencyPauseActive) ∧
    burn_receipt_tokens burnPool testReceipt 21 2 5 navAtt 0 =
      .ok ({ burnPool with total_deposits := burnPool.total_deposits - 5 },
           { testReceipt with
               amount := testReceipt.amount - 5,
               total_claimed := testReceipt.total_claimed + 5 }) ∧
    mint_receipt_tokens pausedPool testReceipt 21 3 2 10 navAtt 0 253 =
      .error (.program .EmergencyPauseActive) ∧
    update_pool_config pausedPool 2 testConfig 0 =
      .error (.program .EmergencyPauseActive) :=
  ⟨⟨rfl, burn_not_pause_gated.1 pausedPool testReceipt 21 2 5 navAtt 0
      (.program .InsufficientFunds) rfl⟩,
   burn_not_pause_gated.2.1 burnPool testReceipt 21 2 5 navAtt 0 1000000 5
     rfl rfl rfl (by decide) (by decide) rfl rfl (by decide),
   burn_not_pause_gated.2.2.1 pausedPool testReceipt 21 3 2 10 navAtt 0 253
     1000000 rfl rfl rfl rfl,
   burn_not_pause_gated.2.2.2 pausedPool 2 testConfig 0 rfl (by decide) rfl⟩

end PrivateCredit
